import Mathlib

/-!
Shallow embedding of the ingestion pipeline in `scripts/kobo_sync.py`
(Geoportal de Reforestaciones, Sololá) and proofs about its behaviour.

Python strings are modelled as Lean `String`s; Python `float` values are
idealised as rationals (`ℚ`), which preserves decimal-parsing behaviour for
the ordinary decimal literals the pipeline handles; Python `None`-able CSV
cell values are `Option String`.  The CSV row (a `dict` with insertion
order) is an association list preserving column order.  Python-stdlib
collaborators whose internals are outside the repository (`csv.Sniffer`,
`datetime.fromisoformat`, timestamp formatting, the network) are
parameters of the corresponding definitions, matching how the spec treats
them as external collaborators.

Parsed datetimes appear in two models.  The pipeline model (`iso_parse`,
`ts_update`) idealises them as rationals, keeping only their order — which
is enough for the feature/totals claims but silently totalises the
comparison `ts > last_ts`.  The refined model (`PyDateTime`, `pyDtGt`,
`ts_update_dt`, `track_last_ts`) additionally records whether a parsed
datetime is offset-aware, because `datetime.fromisoformat` returns an
offset-aware value exactly when the string carries a UTC offset and Python
raises `TypeError` on comparing an offset-naive with an offset-aware
datetime; that refinement exhibits the data-dependent abort of the main
loop (claim C8).
-/

/-- Python whitespace characters recognised by `str.strip` / `str.split`
(ASCII subset, which is all the pipeline ever feeds them). -/
def isPySpace (c : Char) : Bool :=
  c = ' ' || c = '\t' || c = '\n' || c = '\r' || c = Char.ofNat 11 || c = Char.ofNat 12

def isPyDigit (c : Char) : Bool := '0' ≤ c && c ≤ '9'

/-- Model of Python `str.strip()`. -/
def pyStrip (s : String) : String :=
  ⟨((s.data.dropWhile isPySpace).reverse.dropWhile isPySpace).reverse⟩

/-- Helper for `pySplitWs`: `cur` is the current token accumulated in reverse. -/
def splitWsAux : List Char → List Char → List String
  | [], [] => []
  | [], cur => [⟨cur.reverse⟩]
  | c :: rest, cur =>
    if isPySpace c then
      match cur with
      | [] => splitWsAux rest []
      | _ => (⟨cur.reverse⟩ : String) :: splitWsAux rest []
    else splitWsAux rest (c :: cur)

/-- Model of Python `str.split()` with no argument: split on runs of
whitespace, producing no empty tokens. -/
def pySplitWs (s : String) : List String := splitWsAux s.data []

/-- Model of Python `str.lower()` restricted to the characters that can map
into the fixed truthy-token set of the pipeline (ASCII letters plus the accented
I of the localized affirmative). -/
def pyToLower (c : Char) : Char :=
  if 'A' ≤ c && c ≤ 'Z' then Char.ofNat (c.toNat + 32)
  else if c = 'Í' then 'í' else c

def pyLower (s : String) : String := ⟨s.data.map pyToLower⟩

/-- Predicate `lpre pat l` : `pat` is a leading segment of `l` (Python `str.startswith`). -/
def lpre : List Char → List Char → Bool
  | [], _ => true
  | _ :: _, [] => false
  | a :: as, b :: bs => a = b && lpre as bs

/-- Predicate `lsub pat l` : `pat` occurs contiguously inside `l`. -/
def lsub (pat : List Char) : List Char → Bool
  | [] => pat.isEmpty
  | c :: rest => if lpre pat (c :: rest) then true else lsub pat rest

/-- Everything after the first occurrence of `sep` in the list (Python
`k.split(sep, 1)[1]` when `sep` occurs in `k`; `[]` when it does not). -/
def afterFirstSep (sep : List Char) : List Char → List Char
  | [] => []
  | c :: rest =>
    if lpre sep (c :: rest) then (c :: rest).drop sep.length
    else afterFirstSep sep rest

def natOfDigits (l : List Char) : ℕ := l.foldl (fun a c => a * 10 + (c.toNat - 48)) 0

/-- Second stage of decimal parsing: integer digits, fraction digits, and
the remaining characters (possibly an exponent part). -/
def pyFloatTail (sgn : ℚ) (ipart fpart rest : List Char) : Option ℚ :=
  if ipart = [] && fpart = [] then none
  else
    let mant : ℚ := (natOfDigits ipart : ℚ) + (natOfDigits fpart : ℚ) / ((10 : ℚ) ^ fpart.length)
    match rest with
    | [] => some (sgn * mant)
    | e :: r =>
      if e = 'e' || e = 'E' then
        match r with
        | '+' :: t => pyFloatExp sgn mant 1 t
        | '-' :: t => pyFloatExp sgn mant (-1) t
        | t => pyFloatExp sgn mant 1 t
      else none
where
  pyFloatExp (sgn mant : ℚ) (esgn : ℤ) (digits : List Char) : Option ℚ :=
    let ed := digits.takeWhile isPyDigit
    let r2 := digits.dropWhile isPyDigit
    if ed = [] || r2 ≠ [] then none
    else some (sgn * mant * (10 : ℚ) ^ (esgn * (natOfDigits ed : ℤ)))

/-- Model of Python `float(s)` on decimal literals, idealised over `ℚ`
(the pipeline never relies on binary-float rounding, `inf`/`nan` names or
digit underscores, so those stdlib extras are omitted; an input they would
accept and this parser rejects coerces to the same defaults downstream). -/
def pyFloatCore (l : List Char) : Option ℚ :=
  match l with
  | '+' :: r => pyFloatSigned 1 r
  | '-' :: r => pyFloatSigned (-1) r
  | r => pyFloatSigned 1 r
where
  pyFloatSigned (sgn : ℚ) (l1 : List Char) : Option ℚ :=
    let ipart := l1.takeWhile isPyDigit
    let l2 := l1.dropWhile isPyDigit
    match l2 with
    | '.' :: r => pyFloatTail sgn ipart (r.takeWhile isPyDigit) (r.dropWhile isPyDigit)
    | _ => pyFloatTail sgn ipart [] l2

/-- Python `float(s)` (which itself strips surrounding whitespace). -/
def pyFloat? (s : String) : Option ℚ := pyFloatCore (pyStrip s).data

/-- Python 3 `round` to an integer: round half to even. -/
def pyRound (q : ℚ) : ℤ :=
  let f : ℤ := ⌊q⌋
  let r : ℚ := q - (f : ℚ)
  if r < 1 / 2 then f
  else if 1 / 2 < r then f + 1
  else if f % 2 = 0 then f else f + 1

/-- Python `str(v)` for an optional cell value (`str(None) = "None"`). -/
def pyStr (v : Option String) : String :=
  match v with
  | some s => s
  | none => "None"

/-- A decoded CSV row: column name to raw cell text, in column order
(Python `dict` keyed by the header, insertion-ordered). -/
abbrev Row := List (String × String)

/-- Python `row.get(k)`. -/
def Row.get (r : Row) (k : String) : Option String :=
  (r.find? fun p => p.1 = k).map fun p => p.2

def Row.keys (r : Row) : List String := r.map fun p => p.1

/-- Source constant `kobo_sync.GEOPOINT_ROOT_CANDIDATES`. -/
def GEOPOINT_ROOT_CANDIDATES : List String :=
  ["ubicacion", "_geolocation", "geopoint", "location"]

/-- Source constant `kobo_sync.DATE_FIELD_CANDIDATES`. -/
def DATE_FIELD_CANDIDATES : List String :=
  ["fecha_actividad", "_submission_time", "endtime", "starttime", "today", "start", "end"]

/-- Source function `kobo_sync.split_multi_text`. -/
def split_multi_text (v : Option String) : List String :=
  match v with
  | none => []
  | some raw =>
    let s := pyStrip raw
    if s = "" then [] else pySplitWs s

/-- Source function `kobo_sync.truthy`. -/
def truthy (v : String) : Bool :=
  ["1", "true", "t", "yes", "y", "si", "sí"].contains (pyLower (pyStrip v))

/-- Source function `kobo_sync.multiselect_from_split_columns`: scan the row columns in
order; a column `base/choice` or `base_choice` whose value is truthy
contributes `k.split("/", 1)[1]` resp. `k.split(base + "_", 1)[1]`. -/
def multiselect_from_split_columns (row : Row) (base : String) : List String :=
  row.filterMap fun kv =>
    if lpre (base.data ++ ['/']) kv.1.data && truthy kv.2 then
      some ⟨afterFirstSep ['/'] kv.1.data⟩
    else if lpre (base.data ++ ['_']) kv.1.data && truthy kv.2 then
      some ⟨afterFirstSep (base.data ++ ['_']) kv.1.data⟩
    else none

/-- Source function `kobo_sync.get_multiselect`. -/
def get_multiselect (row : Row) (base : String) : List String :=
  match Row.get row base with
  | some v => if pyStrip v = "" then multiselect_from_split_columns row base
              else split_multi_text (some v)
  | none => multiselect_from_split_columns row base

/-- Source function `kobo_sync.to_int`: trim, empty is 0, otherwise `int(round(float(s)))`,
any parse failure is 0. -/
def to_int (v : Option String) : ℤ :=
  let s := pyStrip (pyStr v)
  if s = "" then 0
  else
    match pyFloat? s with
    | none => 0
    | some q => pyRound q

/-- Python `s.replace("Z", "+00:00")` (every occurrence). -/
def zTo0000 (s : String) : String :=
  ⟨(s.data.map fun c => if c = 'Z' then ['+', '0', '0', ':', '0', '0'] else [c]).flatten⟩

/-- Source function `kobo_sync.iso_parse`, with `datetime.datetime.fromisoformat`
(a stdlib collaborator) abstracted as a total `fromiso` oracle returning
`none` where the stdlib call would raise.  Parsed datetimes are idealised
as rationals here, erasing the offset-naive/offset-aware distinction; the
refinement `iso_parse_dt` keeps it (claim C8 shows the distinction makes
the downstream comparison fatal). -/
def iso_parse (fromiso : String → Option ℚ) (v : Option String) : Option ℚ :=
  match v with
  | none => none
  | some raw =>
    let s := pyStrip raw
    if s = "" then none else fromiso (zTo0000 s)

/-- Source function `kobo_sync.sniff_dialect`, with `csv.Sniffer().sniff(sample, delimiters=";,\t")`
abstracted as a `sniffer` oracle on the 4096-character sample, returning the
detected delimiter or `none` where the stdlib call would raise.  On failure
the code falls back to the semicolon delimiter. -/
def sniff_dialect (sniffer : String → Option Char) (text : String) : Char :=
  let sample : String := ⟨text.data.take 4096⟩
  match sniffer sample with
  | some d => d
  | none => ';'

instance {ε α : Type} [DecidableEq ε] [DecidableEq α] : DecidableEq (Except ε α) := fun x y =>
  match x, y with
  | Except.ok a, Except.ok b =>
    if h : a = b then isTrue (by rw [h]) else isFalse (by intro he; cases he; exact h rfl)
  | Except.error a, Except.error b =>
    if h : a = b then isTrue (by rw [h]) else isFalse (by intro he; cases he; exact h rfl)
  | Except.ok _, Except.error _ => isFalse (by intro he; cases he)
  | Except.error _, Except.ok _ => isFalse (by intro he; cases he)

/-- The geopoint mode resolved once per run (`("combined", root, None)`
or `("split", latf, lonf)` in the Python). -/
inductive GeoMode where
  | combined (col : String)
  | split (latCol lonCol : String)
deriving DecidableEq

/-- The fatal error raised by `find_geopoint_mode`, carrying the contents of
its diagnostic message: every root candidate tried and the note about the
split-column variants. -/
structure NoGeopointError where
  rootsTried : List String
  variantsNote : String
deriving DecidableEq

/-- The three split-column naming variants tried for a root, in order. -/
def split_pairs (root : String) : List (String × String) :=
  [(root ++ "_latitude", root ++ "_longitude"),
   (root ++ "/latitude", root ++ "/longitude"),
   ("_" ++ root ++ "_latitude", "_" ++ root ++ "_longitude")]

/-- One iteration of the root loop in `kobo_sync.find_geopoint_mode`:
combined column first, then the split-column pairs in order. -/
def match_root (headers : List String) (root : String) : Option GeoMode :=
  if headers.contains root then some (GeoMode.combined root)
  else
    ((split_pairs root).find? fun p => headers.contains p.1 && headers.contains p.2).map
      fun p => GeoMode.split p.1 p.2

/-- Source function `kobo_sync.find_geopoint_mode`. -/
def find_geopoint_mode (headers : List String) : Except NoGeopointError GeoMode :=
  match GEOPOINT_ROOT_CANDIDATES.findSome? (match_root headers) with
  | some m => Except.ok m
  | none => Except.error ⟨GEOPOINT_ROOT_CANDIDATES, "variantes *_latitude/_longitude"⟩

/-- Source function `kobo_sync.parse_coords`: returns the GeoJSON-ordered pair
`[longitude, latitude]` or `none` when the row has no resolvable coordinate. -/
def parse_coords (row : Row) (mode : GeoMode) : Option (List ℚ) :=
  match mode with
  | GeoMode.combined a =>
    match Row.get row a with
    | none => none
    | some v =>
      match pySplitWs (pyStrip v) with
      | t0 :: t1 :: _ =>
        match pyFloat? t0, pyFloat? t1 with
        | some lat, some lon => some [lon, lat]
        | _, _ => none
      | _ => none
  | GeoMode.split a b =>
    match pyFloat? (pyStrip ((Row.get row a).getD "")), pyFloat? (pyStrip ((Row.get row b).getD "")) with
    | some lat, some lon => some [lon, lat]
    | _, _ => none

/-- Outcome of one `requests.get` call: an HTTP response with its status
code, or a network-level exception with its message. -/
inductive HttpOutcome where
  | resp (status : ℕ)
  | exn (msg : String)
deriving DecidableEq

/-- Test `r.status_code in (502, 503, 504)`. -/
def isTransientStatus (s : ℕ) : Bool := s == 502 || s == 503 || s == 504

/-- An outcome the retry loop treats as transient: a 502/503/504 response
or any exception. -/
def isTransient : HttpOutcome → Bool
  | HttpOutcome.resp s => isTransientStatus s
  | HttpOutcome.exn _ => true

/-- The error text recorded as `last_err` for a transient outcome
(`requests.HTTPError(f"{status} temporary")` for a transient status). -/
def transientMsg : HttpOutcome → String
  | HttpOutcome.resp s => toString s ++ " temporary"
  | HttpOutcome.exn m => m

/-- The sleep before the next attempt after failed attempt `i`:
`min(30, 3 * (2 ** i))`. -/
def backoff (i : ℕ) : ℕ := min 30 (3 * 2 ^ i)

/-- The terminal `RuntimeError` raised when every attempt failed, carrying
the URL and the last underlying error. -/
structure DownloadFailure where
  url : String
  lastErr : Option String
deriving DecidableEq

/-- The retry loop of `kobo_sync.http_get_with_retries`: `n` attempts remain,
`i` is the current attempt index, `last` the last recorded error.  The
network is abstracted as the `attempt` oracle from attempt index to outcome.
Returns the result together with the list of sleeps performed. -/
def retry_loop (attempt : ℕ → HttpOutcome) : ℕ → ℕ → Option String →
    Except (Option String) ℕ × List ℕ
  | 0, _, last => (Except.error last, [])
  | n + 1, i, _last =>
    match attempt i with
    | HttpOutcome.resp s =>
      if isTransientStatus s then
        let r := retry_loop attempt n (i + 1) (some (transientMsg (HttpOutcome.resp s)))
        (r.1, backoff i :: r.2)
      else (Except.ok s, [])
    | HttpOutcome.exn m =>
      let r := retry_loop attempt n (i + 1) (some m)
      (r.1, backoff i :: r.2)

/-- Source function `kobo_sync.http_get_with_retries` (the response is represented by its
status code; non-transient statuses, 4xx included, are returned to the
caller as-is). -/
def http_get_with_retries (attempt : ℕ → HttpOutcome) (url : String) (tries : ℕ) :
    Except DownloadFailure ℕ × List ℕ :=
  let r := retry_loop attempt tries 0 none
  (match r.1 with
   | Except.ok s => Except.ok s
   | Except.error last => Except.error ⟨url, last⟩, r.2)

/-- An export-settings descriptor as consumed by the name search in
`kobo_sync.main` (`it.get("name")`, `it.get("title")`). -/
structure ExportSetting where
  name : Option String
  title : Option String
deriving DecidableEq

/-- Python `a or b` on an optional string against a string default:
`None` and the empty string both fall through. -/
def pyOrStr (a : Option String) (b : String) : String :=
  match a with
  | none => b
  | some s => if s = "" then b else s

/-- The single quote character (the Python message quotes the name). -/
def squote : Char := Char.ofNat 39

/-- The diagnostic of the export-name lookup failure: the fixed message with
the requested export name inserted between single quotes. -/
def not_found_msg (exportName : String) : String :=
  "No encontré export-setting con name=" ++ ⟨[squote]⟩ ++ exportName ++ ⟨[squote]⟩ ++ "."

/-- The export-name search of `kobo_sync.main` (lines 173-180): the first
accumulated descriptor whose stripped `name`-or-`title` equals the
configured export name, else the fatal lookup error with its message. -/
def locate_export (settings : List ExportSetting) (exportName : String) :
    Except String ExportSetting :=
  match settings.find? fun it => pyStrip (pyOrStr it.name (pyOrStr it.title "")) = exportName with
  | some e => Except.ok e
  | none => Except.error (not_found_msg exportName)

/-- The fixed property bag built per feature in `kobo_sync.main`. -/
structure Props where
  id : String
  fecha_actividad : String
  municipios : List String
  comunidad : String
  sitio_nombre : String
  instituciones : List String
  institucion_resp_otro : String
  area_m2 : ℤ
  tenencia : String
  total_plantas : ℤ
  total_participantes : ℤ
  autoriza_fotos : String
  foto_sitio_url : String
  foto_actividad_url : String
  observaciones : String
deriving DecidableEq

/-- A GeoJSON point feature: coordinates `[lon, lat]` plus its properties. -/
structure Feature where
  coordinates : List ℚ
  properties : Props
deriving DecidableEq

/-- The property bag for one included row (`nfeat` is the number of features
already accumulated, used by the synthetic `row-N` identifier). -/
def mk_props (row : Row) (dateField : Option String) (nfeat : ℕ) : Props :=
  { id := pyOrStr (Row.get row "_id") (pyOrStr (Row.get row "_uuid")
      (pyOrStr (Row.get row "meta/instanceID") (pyOrStr (Row.get row "id")
        ("row-" ++ toString (nfeat + 1)))))
    fecha_actividad := pyOrStr (Row.get row "fecha_actividad")
      (pyOrStr (match dateField with
        | some df => Row.get row df
        | none => some "") "")
    municipios := get_multiselect row "municipios"
    comunidad := pyOrStr (Row.get row "comunidad") ""
    sitio_nombre := pyOrStr (Row.get row "sitio_nombre") ""
    instituciones := get_multiselect row "institucion_resp"
    institucion_resp_otro := pyOrStr (Row.get row "institucion_resp_otro") ""
    area_m2 := to_int (Row.get row "area_m2")
    tenencia := pyOrStr (Row.get row "tenencia") ""
    total_plantas := to_int (Row.get row "total_plantas")
    total_participantes := to_int (Row.get row "total_participantes")
    autoriza_fotos := pyOrStr (Row.get row "autoriza_fotos") ""
    foto_sitio_url := pyOrStr (Row.get row "foto_sitio_URL") (pyOrStr (Row.get row "foto_sitio") "")
    foto_actividad_url := pyOrStr (Row.get row "foto_actividad_URL")
      (pyOrStr (Row.get row "foto_actividad") "")
    observaciones := pyOrStr (Row.get row "observaciones") "" }

/-- The accumulator of the per-row loop in `kobo_sync.main`. -/
structure BuildState where
  features : List Feature
  total_boletas : ℤ
  total_plantas : ℤ
  total_participantes : ℤ
  last_ts : Option ℚ
deriving DecidableEq

def build_init : BuildState := ⟨[], 0, 0, 0, none⟩

/-- The `last_ts` update: `if ts and (last_ts is None or ts > last_ts)`,
idealised over the total order of `ℚ`.  This drops the `TypeError` Python
raises when `ts > last_ts` compares an offset-naive with an offset-aware
datetime; `ts_update_dt` is the faithful refinement of this update used for
claim C8. -/
def ts_update (acc : Option ℚ) (t? : Option ℚ) : Option ℚ :=
  match t? with
  | none => acc
  | some t =>
    match acc with
    | none => some t
    | some a => if a < t then some t else some a

/-- One iteration of the per-row loop in `kobo_sync.main`: skip the row when
it has no resolvable coordinates, otherwise build its feature, accumulate
the three totals, and track the latest parsed timestamp. -/
def build_step (fromiso : String → Option ℚ) (mode : GeoMode) (dateField : Option String)
    (st : BuildState) (row : Row) : BuildState :=
  match parse_coords row mode with
  | none => st
  | some coords =>
    let props := mk_props row dateField st.features.length
    { features := st.features ++ [⟨coords, props⟩]
      total_boletas := st.total_boletas + 1
      total_plantas := st.total_plantas + props.total_plantas
      total_participantes := st.total_participantes + props.total_participantes
      last_ts :=
        match dateField with
        | none => st.last_ts
        | some df => ts_update st.last_ts (iso_parse fromiso (Row.get row df)) }

/-- The whole per-row loop of `kobo_sync.main`. -/
def build_features (fromiso : String → Option ℚ) (mode : GeoMode) (dateField : Option String)
    (rows : List Row) : BuildState :=
  rows.foldl (build_step fromiso mode dateField) build_init

/-- The summary document (`resumen.json`). -/
structure Resumen where
  ultima_actualizacion : String
  total_boletas : ℤ
  total_plantas : ℤ
  total_participantes : ℤ
deriving DecidableEq

/-- The feature-collection document (`puntos.geojson`). -/
structure Geojson where
  features : List Feature
deriving DecidableEq

structure PipelineOut where
  geojson : Geojson
  resumen : Resumen
deriving DecidableEq

/-- The data-to-documents part of `kobo_sync.main` (lines 201-274): from the
decoded rows to the two output documents.  `fmt` models
`datetime.isoformat` on the tracked timestamp and `now` the
`utc_now_iso()` string; zero rows short-circuit to the empty collection and
the zero summary before any geopoint detection. -/
def run_pipeline (fromiso : String → Option ℚ) (fmt : ℚ → String) (now : String)
    (rows : List Row) : Except NoGeopointError PipelineOut :=
  match rows with
  | [] => Except.ok ⟨⟨[]⟩, ⟨now, 0, 0, 0⟩⟩
  | r0 :: _ =>
    match find_geopoint_mode (Row.keys r0) with
    | Except.error e => Except.error e
    | Except.ok mode =>
      let dateField := DATE_FIELD_CANDIDATES.find? fun k => (Row.keys r0).contains k
      let st := build_features fromiso mode dateField rows
      let ultima :=
        match st.last_ts with
        | some t => fmt t
        | none => now
      Except.ok ⟨⟨st.features⟩,
        ⟨ultima, st.total_boletas, st.total_plantas, st.total_participantes⟩⟩


/-- Spec-side reading of the multiselect scan (claim C3): for each matching
column the result is "the suffix after the prefix", i.e. the column name
with the leading `base + "/"` resp. `base + "_"` removed. -/
def claim_scan (row : Row) (base : String) : List String :=
  row.filterMap fun kv =>
    if lpre (base.data ++ ['/']) kv.1.data && truthy kv.2 then
      some ⟨kv.1.data.drop (base.data.length + 1)⟩
    else if lpre (base.data ++ ['_']) kv.1.data && truthy kv.2 then
      some ⟨kv.1.data.drop (base.data.length + 1)⟩
    else none

/-- Spec-side reading of one root iteration of geopoint detection
(claim C2): combined column first, then the three split-column naming
variants in their stated order. -/
def claim_root_match (headers : List String) (root : String) : Option GeoMode :=
  if headers.contains root then some (GeoMode.combined root)
  else if headers.contains (root ++ "_latitude") && headers.contains (root ++ "_longitude") then
    some (GeoMode.split (root ++ "_latitude") (root ++ "_longitude"))
  else if headers.contains (root ++ "/latitude") && headers.contains (root ++ "/longitude") then
    some (GeoMode.split (root ++ "/latitude") (root ++ "/longitude"))
  else if headers.contains ("_" ++ root ++ "_latitude") && headers.contains ("_" ++ root ++ "_longitude") then
    some (GeoMode.split ("_" ++ root ++ "_latitude") ("_" ++ root ++ "_longitude"))
  else none

/-- Spec-side reading of geopoint detection as a whole (claim C2): first
root whose matcher fires wins, root order as tie-break; otherwise the fatal
error naming every root tried. -/
def claim_geopoint (headers : List String) : Except NoGeopointError GeoMode :=
  match GEOPOINT_ROOT_CANDIDATES.findSome? (claim_root_match headers) with
  | some m => Except.ok m
  | none => Except.error ⟨GEOPOINT_ROOT_CANDIDATES, "variantes *_latitude/_longitude"⟩

/-- A parsed datetime as `datetime.fromisoformat` actually returns it:
`aware` records whether the value carries a UTC offset (true for inputs
ending in `+00:00`, i.e. after the `Z` rewrite; false for plain
`YYYY-MM-DDTHH:MM:SS` inputs), and `val` idealises the instant as a
rational. -/
structure PyDateTime where
  aware : Bool
  val : ℚ
deriving DecidableEq

/-- Python `a > b` on datetimes: comparing an offset-naive with an
offset-aware datetime raises `TypeError`; otherwise the instants are
compared. -/
def pyDtGt (a b : PyDateTime) : Except String Bool :=
  if a.aware ≠ b.aware then
    Except.error "TypeError: comparison of offset-naive and offset-aware datetimes"
  else Except.ok (decide (b.val < a.val))

/-- The faithful refinement of `ts_update`:
`if ts and (last_ts is None or ts > last_ts)` with the fallible datetime
comparison.  The short-circuit is preserved: a `None` value or a `None`
accumulator never reaches the comparison. -/
def ts_update_dt (acc : Option PyDateTime) (t? : Option PyDateTime) :
    Except String (Option PyDateTime) :=
  match t? with
  | none => Except.ok acc
  | some t =>
    match acc with
    | none => Except.ok (some t)
    | some a =>
      match pyDtGt t a with
      | Except.error e => Except.error e
      | Except.ok b => Except.ok (if b then some t else some a)

/-- Source function `kobo_sync.iso_parse` over the refined datetime model:
same strip / empty-check / `Z`-to-`+00:00` rewrite, with the
`fromisoformat` oracle now returning awareness-carrying values. -/
def iso_parse_dt (fromiso : String → Option PyDateTime) (v : Option String) :
    Option PyDateTime :=
  match v with
  | none => none
  | some raw =>
    let s := pyStrip raw
    if s = "" then none else fromiso (zTo0000 s)

/-- The date-tracking aspect of the per-row loop of `kobo_sync.main`
(lines 228-264 restricted to `last_ts`): rows without resolvable
coordinates are skipped before any date work; for the others the tracked
value is updated by the fallible comparison, and an uncaught `TypeError`
aborts the whole loop (nothing after it runs and no output is written),
which the fold models by short-circuiting on the error. -/
def track_last_ts (fromiso : String → Option PyDateTime) (mode : GeoMode) (df : String)
    (rows : List Row) : Except String (Option PyDateTime) :=
  rows.foldl
    (fun acc row =>
      match acc with
      | Except.error e => Except.error e
      | Except.ok last =>
        match parse_coords row mode with
        | none => Except.ok last
        | some _ => ts_update_dt last (iso_parse_dt fromiso (Row.get row df)))
    (Except.ok none)

/-- A concrete `fromisoformat` oracle consistent with the stdlib on the two
date strings of the C8 failing input: an input carrying the `+00:00` offset
parses offset-aware, a bare timestamp parses offset-naive. -/
def fromiso_cex : String → Option PyDateTime := fun s =>
  if s = "2024-05-01T10:00:00+00:00" then some ⟨true, 0⟩
  else if s = "2024-05-02T10:00:00" then some ⟨false, 1⟩
  else none

lemma pyFloat_19_43 : pyFloat? "19.43" = some (1943 / 100) := by
  simp [pyFloat?, pyFloatCore, pyFloatCore.pyFloatSigned, pyFloatTail, pyStrip, natOfDigits,
    List.takeWhile, List.dropWhile, isPyDigit, isPySpace]
  norm_num

lemma pyFloat_neg99_13 : pyFloat? "-99.13" = some (-9913 / 100) := by
  simp [pyFloat?, pyFloatCore, pyFloatCore.pyFloatSigned, pyFloatTail, pyStrip, natOfDigits,
    List.takeWhile, List.dropWhile, isPyDigit, isPySpace]
  norm_num

lemma pyFloat_1_5 : pyFloat? "1.5" = some (3 / 2) := by
  simp [pyFloat?, pyFloatCore, pyFloatCore.pyFloatSigned, pyFloatTail, pyStrip, natOfDigits,
    List.takeWhile, List.dropWhile, isPyDigit, isPySpace]
  norm_num

lemma pyFloat_2_5 : pyFloat? "2.5" = some (5 / 2) := by
  simp [pyFloat?, pyFloatCore, pyFloatCore.pyFloatSigned, pyFloatTail, pyStrip, natOfDigits,
    List.takeWhile, List.dropWhile, isPyDigit, isPySpace]
  norm_num

lemma parse_coords_combined_some (row : Row) (c v t0 t1 : String) (rest : List String)
    (lat lon : ℚ) (hget : Row.get row c = some v)
    (hsplit : pySplitWs (pyStrip v) = t0 :: t1 :: rest)
    (h0 : pyFloat? t0 = some lat) (h1 : pyFloat? t1 = some lon) :
    parse_coords row (GeoMode.combined c) = some [lon, lat] := by
  simp only [parse_coords, hget, hsplit, h0, h1]

lemma parse_coords_combined_short (row : Row) (c v : String) (hget : Row.get row c = some v)
    (hlen : (pySplitWs (pyStrip v)).length < 2) :
    parse_coords row (GeoMode.combined c) = none := by
  simp only [parse_coords, hget]
  rcases hs : pySplitWs (pyStrip v) with _ | ⟨t0, _ | ⟨t1, rest⟩⟩
  · rfl
  · rfl
  · rw [hs] at hlen
    simp at hlen
    omega

lemma parse_coords_combined_bad0 (row : Row) (c v t0 : String) (rest : List String)
    (hget : Row.get row c = some v) (hsplit : pySplitWs (pyStrip v) = t0 :: rest)
    (h0 : pyFloat? t0 = none) :
    parse_coords row (GeoMode.combined c) = none := by
  simp only [parse_coords, hget]
  cases rest with
  | nil => simp only [hsplit]
  | cons t1 rest2 => simp only [hsplit, h0]

lemma parse_coords_combined_bad1 (row : Row) (c v t0 t1 : String) (rest : List String)
    (hget : Row.get row c = some v) (hsplit : pySplitWs (pyStrip v) = t0 :: t1 :: rest)
    (h1 : pyFloat? t1 = none) :
    parse_coords row (GeoMode.combined c) = none := by
  simp only [parse_coords, hget, hsplit, h1]
  cases pyFloat? t0 <;> rfl

lemma parse_coords_example :
    parse_coords [("ubicacion", "19.43 -99.13 10 5")] (GeoMode.combined "ubicacion") =
      some [-9913 / 100, 1943 / 100] := by
  have hget : Row.get [("ubicacion", "19.43 -99.13 10 5")] "ubicacion" =
      some "19.43 -99.13 10 5" := by decide
  have hsplit : pySplitWs (pyStrip "19.43 -99.13 10 5") = ["19.43", "-99.13", "10", "5"] := by
    decide
  exact parse_coords_combined_some _ _ _ _ _ _ _ _ hget hsplit pyFloat_19_43 pyFloat_neg99_13

/-- Claim C1: for every row whose combined-geopoint column holds a
whitespace-separated string whose first two tokens parse as decimal numbers
lat then lon, coordinate parsing returns the pair ordered
`[longitude, latitude]`; in particular `"19.43 -99.13 10 5"` yields
`[-99.13, 19.43]`, and strings with fewer than two tokens or whose first or
second token does not parse yield no coordinates for that row. -/
theorem coords_C1_lon_lat_order :
    (∀ (row : Row) (c v t0 t1 : String) (rest : List String) (lat lon : ℚ),
       Row.get row c = some v → pySplitWs (pyStrip v) = t0 :: t1 :: rest →
       pyFloat? t0 = some lat → pyFloat? t1 = some lon →
       parse_coords row (GeoMode.combined c) = some [lon, lat]) ∧
    (parse_coords [("ubicacion", "19.43 -99.13 10 5")] (GeoMode.combined "ubicacion") =
       some [-9913 / 100, 1943 / 100]) ∧
    (∀ (row : Row) (c v : String), Row.get row c = some v →
       (pySplitWs (pyStrip v)).length < 2 → parse_coords row (GeoMode.combined c) = none) ∧
    (∀ (row : Row) (c v t0 : String) (rest : List String), Row.get row c = some v →
       pySplitWs (pyStrip v) = t0 :: rest → pyFloat? t0 = none →
       parse_coords row (GeoMode.combined c) = none) ∧
    (∀ (row : Row) (c v t0 t1 : String) (rest : List String), Row.get row c = some v →
       pySplitWs (pyStrip v) = t0 :: t1 :: rest → pyFloat? t1 = none →
       parse_coords row (GeoMode.combined c) = none) :=
  ⟨parse_coords_combined_some, parse_coords_example, parse_coords_combined_short,
   parse_coords_combined_bad0, parse_coords_combined_bad1⟩

/-- Witness for C1: the general lon/lat-swap conjunct applied at a concrete
row. -/
theorem coords_C1_witness :
    parse_coords [("g", "1.5 2.5")] (GeoMode.combined "g") = some [5 / 2, 3 / 2] :=
  coords_C1_lon_lat_order.1 [("g", "1.5 2.5")] "g" "1.5 2.5" "1.5" "2.5" [] (3 / 2) (5 / 2)
    (by decide) (by decide) pyFloat_1_5 pyFloat_2_5

lemma match_root_eq_claim (headers : List String) (root : String) :
    match_root headers root = claim_root_match headers root := by
  unfold match_root claim_root_match split_pairs
  cases h0 : headers.contains root with
  | true => simp only [h0]; rfl
  | false =>
    simp only [h0, Bool.false_eq_true, if_false, List.find?]
    cases h1 : headers.contains (root ++ "_latitude") && headers.contains (root ++ "_longitude") <;>
      cases h2 : headers.contains (root ++ "/latitude") && headers.contains (root ++ "/longitude") <;>
        cases h3 : headers.contains ("_" ++ root ++ "_latitude") &&
            headers.contains ("_" ++ root ++ "_longitude") <;>
          simp [h1, h2, h3]

lemma find_geopoint_eq_claim (headers : List String) :
    find_geopoint_mode headers = claim_geopoint headers := by
  unfold find_geopoint_mode claim_geopoint
  rw [show GEOPOINT_ROOT_CANDIDATES.findSome? (match_root headers) =
      GEOPOINT_ROOT_CANDIDATES.findSome? (claim_root_match headers) from ?_]
  · induction GEOPOINT_ROOT_CANDIDATES with
    | nil => rfl
    | cons r rs ih => simp [List.findSome?, match_root_eq_claim headers r, ih]

/-- Claim C2: geopoint-mode detection iterates the fixed root priority list;
per root the single combined column is checked first and only then the three
split-column variants in their stated order, the first match winning with
root order as tie-break; when no root matches any pattern it fails with the
fatal error naming every root tried (and the variants note). -/
theorem geopoint_C2_detection :
    (∀ headers, find_geopoint_mode headers = claim_geopoint headers) ∧
    (∀ headers e, find_geopoint_mode headers = Except.error e →
       e.rootsTried = GEOPOINT_ROOT_CANDIDATES ∧
       ∀ root ∈ GEOPOINT_ROOT_CANDIDATES, claim_root_match headers root = none) := by
  refine ⟨find_geopoint_eq_claim, ?_⟩
  intro headers e h
  rw [find_geopoint_eq_claim] at h
  unfold claim_geopoint at h
  cases hf : GEOPOINT_ROOT_CANDIDATES.findSome? (claim_root_match headers) with
  | some m => rw [hf] at h; cases h
  | none =>
    rw [hf] at h
    cases h
    exact ⟨rfl, List.findSome?_eq_none_iff.mp hf⟩

/-- Witness for C2: the failure conjunct applied to a concrete header list
with no geopoint pattern. -/
theorem geopoint_C2_witness :
    (⟨GEOPOINT_ROOT_CANDIDATES, "variantes *_latitude/_longitude"⟩ :
        NoGeopointError).rootsTried = GEOPOINT_ROOT_CANDIDATES ∧
    ∀ root ∈ GEOPOINT_ROOT_CANDIDATES, claim_root_match ["x"] root = none :=
  geopoint_C2_detection.2 ["x"] ⟨GEOPOINT_ROOT_CANDIDATES, "variantes *_latitude/_longitude"⟩
    (by decide)

lemma lpre_append (p t : List Char) : lpre p (p ++ t) = true := by
  induction p with
  | nil => rfl
  | cons a as ih => simp [lpre, ih]

lemma afterFirstSep_of_lpre (sep l : List Char) (h : lpre sep l = true) :
    afterFirstSep sep l = l.drop sep.length := by
  cases l with
  | nil => simp [afterFirstSep]
  | cons c rest => simp only [afterFirstSep, h, if_true]

lemma afterFirstSep_slash (b k : List Char) (hnb : '/' ∉ b)
    (h : lpre (b ++ ['/']) k = true) :
    afterFirstSep ['/'] k = k.drop (b.length + 1) := by
  induction b generalizing k with
  | nil =>
    cases k with
    | nil => simp [lpre] at h
    | cons c t =>
      simp only [List.nil_append, lpre, Bool.and_eq_true, decide_eq_true_eq] at h
      obtain ⟨hc, -⟩ := h
      subst hc
      simp [afterFirstSep, lpre]
  | cons a as ih =>
    cases k with
    | nil => simp [lpre] at h
    | cons c t =>
      simp only [List.cons_append, lpre, Bool.and_eq_true, decide_eq_true_eq] at h
      obtain ⟨hac, ht⟩ := h
      subst hac
      have hc : ¬('/' = a) := by
        intro he
        exact hnb (by simp [← he])
      have hnb2 : '/' ∉ as := fun hm => hnb (List.mem_cons_of_mem _ hm)
      simp only [afterFirstSep, lpre, hc, decide_eq_true_eq, Bool.false_and, if_false,
        decide_eq_false hc]
      rw [ih t hnb2 ht]
      simp [List.length_cons]

lemma scan_eq_claim_scan (row : Row) (base : String) (h : '/' ∉ base.data) :
    multiselect_from_split_columns row base = claim_scan row base := by
  unfold multiselect_from_split_columns claim_scan
  refine List.filterMap_congr fun kv _ => ?_
  cases h1 : (lpre (base.data ++ ['/']) kv.1.data && truthy kv.2) with
  | true =>
    have hp : lpre (base.data ++ ['/']) kv.1.data = true := by
      cases hq : lpre (base.data ++ ['/']) kv.1.data
      · rw [hq, Bool.false_and] at h1; cases h1
      · rfl
    simp [h1, afterFirstSep_slash base.data kv.1.data h hp]
  | false =>
    cases h2 : (lpre (base.data ++ ['_']) kv.1.data && truthy kv.2) with
    | true =>
      have hp2 : lpre (base.data ++ ['_']) kv.1.data = true := by
        cases hq : lpre (base.data ++ ['_']) kv.1.data
        · rw [hq, Bool.false_and] at h2; cases h2
        · rfl
      simp [h1, h2, afterFirstSep_of_lpre _ _ hp2, List.length_append]
    | false => simp [h1, h2]

/-- Claim C3, amended: reconstruction returns the whitespace-split of the
column named exactly `base` when it exists with non-empty text; otherwise
the scan of `base/`- and `base_`-prefixed columns with truthy values in
column order, where the option taken from a `base/`-prefixed column is the
suffix after the FIRST slash of the column name — which equals the suffix
after the prefix exactly when `base` itself contains no slash (the `base_`
form always yields the suffix after the prefix); and the empty list when
neither form is present. -/
theorem multiselect_C3_reconstruction :
    (∀ (row : Row) (base v : String), Row.get row base = some v → pyStrip v ≠ "" →
       get_multiselect row base = pySplitWs (pyStrip v)) ∧
    (∀ (row : Row) (base : String), '/' ∉ base.data →
       (∀ v, Row.get row base = some v → pyStrip v = "") →
       get_multiselect row base = claim_scan row base) ∧
    (∀ (row : Row) (base : String),
       (∀ v, Row.get row base = some v → pyStrip v = "") →
       (∀ kv ∈ row, lpre (base.data ++ ['/']) kv.1.data = false ∧
          lpre (base.data ++ ['_']) kv.1.data = false) →
       get_multiselect row base = []) ∧
    (get_multiselect [("municipios/A", "1"), ("municipios/B", "0"), ("municipios/C", "1")]
       "municipios" = ["A", "C"]) ∧
    (get_multiselect [("municipios", "A C")] "municipios" = ["A", "C"]) := by
  refine ⟨?_, ?_, ?_, by decide, by decide⟩
  · intro row base v hget hne
    simp only [get_multiselect, hget, hne, if_false, split_multi_text]
  · intro row base hsl hempty
    cases hget : Row.get row base with
    | none => simp only [get_multiselect, hget]; exact scan_eq_claim_scan row base hsl
    | some v =>
      have he : pyStrip v = "" := hempty v hget
      simp only [get_multiselect, hget, he, if_true]
      exact scan_eq_claim_scan row base hsl
  · intro row base hempty hnopre
    have hscan : multiselect_from_split_columns row base = [] := by
      unfold multiselect_from_split_columns
      refine List.filterMap_eq_nil_iff.mpr fun kv hkv => ?_
      obtain ⟨hp1, hp2⟩ := hnopre kv hkv
      simp [hp1, hp2]
    cases hget : Row.get row base with
    | none => simp only [get_multiselect, hget]; exact hscan
    | some v =>
      have he : pyStrip v = "" := hempty v hget
      simp only [get_multiselect, hget]
      rw [if_pos he]
      exact hscan

/-- Counterexample to C3 as stated: for the logical field base `"a/b"`
(which itself contains a slash) and the truthy column `"a/b/c"`, the code
returns the suffix after the first slash (`"b/c"`), not the suffix after the
prefix (`"c"`). -/
theorem multiselect_C3_counterexample :
    get_multiselect [("a/b/c", "1")] "a/b" = ["b/c"] ∧
    claim_scan [("a/b/c", "1")] "a/b" = ["c"] ∧
    get_multiselect [("a/b/c", "1")] "a/b" ≠ claim_scan [("a/b/c", "1")] "a/b" := by
  refine ⟨by decide, by decide, by decide⟩

/-- Witness for C3: the otherwise-scan conjunct applied at a slash-free base
with the exact column absent. -/
theorem multiselect_C3_witness :
    get_multiselect [("m/A", "1")] "m" = claim_scan [("m/A", "1")] "m" :=
  multiselect_C3_reconstruction.2.1 [("m/A", "1")] "m" (by decide)
    (fun v hv => by rw [show Row.get [("m/A", "1")] "m" = none from by decide] at hv; cases hv)

lemma backoff_shift (i k : ℕ) :
    backoff i :: ((List.range k).map fun d => backoff (i + 1 + d)) =
      (List.range (k + 1)).map fun d => backoff (i + d) := by
  rw [List.range_succ_eq_map, List.map_cons, List.map_map, Nat.add_zero]
  congr 1
  exact List.map_congr_left fun d _ => by
    show backoff (i + 1 + d) = backoff (i + Nat.succ d)
    congr 1
    omega

lemma retry_loop_success (attempt : ℕ → HttpOutcome) (s : ℕ) :
    ∀ (j n i : ℕ) (last : Option String), j < n →
      (∀ d, d < j → isTransient (attempt (i + d)) = true) →
      attempt (i + j) = HttpOutcome.resp s → isTransientStatus s = false →
      retry_loop attempt n i last = (Except.ok s, (List.range j).map fun d => backoff (i + d)) := by
  intro j
  induction j with
  | zero =>
    intro n i last hj htr hresp hs
    cases n with
    | zero => omega
    | succ m =>
      have ha : attempt i = HttpOutcome.resp s := by simpa using hresp
      simp [retry_loop, ha, hs]
  | succ k ih =>
    intro n i last hj htr hresp hs
    cases n with
    | zero => omega
    | succ m =>
      have h0 : isTransient (attempt i) = true := by simpa using htr 0 (Nat.succ_pos k)
      have htr2 : ∀ d, d < k → isTransient (attempt (i + 1 + d)) = true := fun d hd => by
        have := htr (d + 1) (by omega)
        rwa [show i + (d + 1) = i + 1 + d by omega] at this
      have hresp2 : attempt (i + 1 + k) = HttpOutcome.resp s := by
        rwa [show i + 1 + k = i + (k + 1) by omega]
      cases ha : attempt i with
      | resp s0 =>
        have hts : isTransientStatus s0 = true := by
          rw [ha] at h0
          simpa [isTransient] using h0
        have hrec := ih m (i + 1) (some (transientMsg (HttpOutcome.resp s0))) (by omega)
          htr2 hresp2 hs
        simp only [retry_loop, ha, hts, if_true, hrec]
        rw [backoff_shift]
      | exn m0 =>
        have hrec := ih m (i + 1) (some m0) (by omega) htr2 hresp2 hs
        simp only [retry_loop, ha, hrec]
        rw [backoff_shift]

lemma retry_loop_exhaust (attempt : ℕ → HttpOutcome) :
    ∀ (n i : ℕ) (last : Option String),
      (∀ d, d < n → isTransient (attempt (i + d)) = true) →
      retry_loop attempt n i last =
        (Except.error (if n = 0 then last else some (transientMsg (attempt (i + n - 1)))),
         (List.range n).map fun d => backoff (i + d)) := by
  intro n
  induction n with
  | zero => intro i last htr; simp [retry_loop]
  | succ k ih =>
    intro i last htr
    have h0 : isTransient (attempt i) = true := by simpa using htr 0 (Nat.succ_pos k)
    have htr2 : ∀ d, d < k → isTransient (attempt (i + 1 + d)) = true := fun d hd => by
      have := htr (d + 1) (by omega)
      rwa [show i + (d + 1) = i + 1 + d by omega] at this
    cases ha : attempt i with
    | resp s0 =>
      have hts : isTransientStatus s0 = true := by
        rw [ha] at h0
        simpa [isTransient] using h0
      have hrec := ih (i + 1) (some (transientMsg (HttpOutcome.resp s0))) htr2
      simp only [retry_loop, ha, hts, if_true, hrec]
      rw [backoff_shift]
      cases k with
      | zero => simp [ha]
      | succ k2 =>
        have harith : i + 1 + (k2 + 1) - 1 = i + (k2 + 1 + 1) - 1 := by omega
        simp [harith]
    | exn m0 =>
      have hrec := ih (i + 1) (some m0) htr2
      simp only [retry_loop, ha, hrec]
      rw [backoff_shift]
      cases k with
      | zero => simp [ha, transientMsg]
      | succ k2 =>
        have harith : i + 1 + (k2 + 1) - 1 = i + (k2 + 1 + 1) - 1 := by omega
        simp [harith]

/-- Claim C5: 502/503/504 and any network-level exception are transient; the
delay after failed attempt `i` is `min(30, 3*2^i)` (3, 6, 12, 24, then 30
capped); the loop runs for up to `tries` attempts, the first non-transient
response being returned to the caller; after all attempts fail it raises the
terminal failure carrying the URL and the last underlying error; and a 503
twice followed by a 200 returns the 200 after exactly two retries. -/
theorem retry_C5_backoff_policy :
    (backoff 0 = 3 ∧ backoff 1 = 6 ∧ backoff 2 = 12 ∧ backoff 3 = 24 ∧
       ∀ i, 4 ≤ i → backoff i = 30) ∧
    (∀ (attempt : ℕ → HttpOutcome) (url : String) (tries j s : ℕ),
       j < tries → (∀ d, d < j → isTransient (attempt d) = true) →
       attempt j = HttpOutcome.resp s → isTransientStatus s = false →
       http_get_with_retries attempt url tries = (Except.ok s, (List.range j).map backoff)) ∧
    (∀ (attempt : ℕ → HttpOutcome) (url : String) (tries : ℕ),
       0 < tries → (∀ d, d < tries → isTransient (attempt d) = true) →
       http_get_with_retries attempt url tries =
         (Except.error ⟨url, some (transientMsg (attempt (tries - 1)))⟩,
          (List.range tries).map backoff)) ∧
    (http_get_with_retries
       (fun i => if i < 2 then HttpOutcome.resp 503 else HttpOutcome.resp 200) "u" 7 =
       (Except.ok 200, [3, 6])) := by
  refine ⟨⟨by decide, by decide, by decide, by decide, ?_⟩, ?_, ?_, by decide⟩
  · intro i hi
    have h16 : (16 : ℕ) ≤ 2 ^ i := by
      calc (16 : ℕ) = 2 ^ 4 := by norm_num
      _ ≤ 2 ^ i := Nat.pow_le_pow_right (by norm_num) hi
    have h48 : (48 : ℕ) ≤ 3 * 2 ^ i := by omega
    unfold backoff
    omega
  · intro attempt url tries j s hj htr hresp hs
    have h := retry_loop_success attempt s j tries 0 none hj
      (fun d hd => by simpa using htr d hd) (by simpa using hresp) hs
    unfold http_get_with_retries
    rw [h]
    simp only []
    congr 1
    exact List.map_congr_left fun d _ => by rw [Nat.zero_add]
  · intro attempt url tries htries htr
    have h := retry_loop_exhaust attempt tries 0 none (fun d hd => by simpa using htr d hd)
    unfold http_get_with_retries
    rw [h]
    have hne : ¬(tries = 0) := by omega
    simp only [hne, if_false, Nat.zero_add]

/-- Witness for C5: the first-non-transient conjunct at a concrete schedule
(an immediate 200). -/
theorem retry_C5_witness :
    http_get_with_retries (fun _ => HttpOutcome.resp 200) "u" 1 =
      (Except.ok 200, (List.range 0).map backoff) :=
  retry_C5_backoff_policy.2.1 (fun _ => HttpOutcome.resp 200) "u" 1 0 200 (by decide)
    (fun d hd => absurd hd (by omega)) rfl (by decide)

lemma lsub_of_append (a p b : List Char) : lsub p (a ++ p ++ b) = true := by
  induction a with
  | nil =>
    cases p with
    | nil =>
      cases b with
      | nil => rfl
      | cons c t =>
        show lsub [] (c :: t) = true
        simp only [lsub]
        rw [if_pos (show lpre [] (c :: t) = true from rfl)]
    | cons x xs =>
      show lsub (x :: xs) (x :: (xs ++ b)) = true
      simp only [lsub]
      rw [if_pos (show lpre (x :: xs) (x :: (xs ++ b)) = true from lpre_append (x :: xs) b)]
  | cons c cs ih =>
    show lsub p (c :: (cs ++ p ++ b)) = true
    simp only [lsub]
    by_cases hp : lpre p (c :: (cs ++ p ++ b)) = true
    · rw [if_pos hp]
    · rw [if_neg hp]
      exact ih

/-- Counterexample to C6 as stated: with one available descriptor named
`"otro"` and requested name `"portal_csv"`, the lookup error message does
not contain the available name. -/
theorem locate_C6_counterexample :
    locate_export [⟨some "otro", none⟩] "portal_csv" =
      Except.error (not_found_msg "portal_csv") ∧
    lsub "otro".data (not_found_msg "portal_csv").data = false := by
  refine ⟨by decide, by decide⟩

/-- Claim C6, amended: when no accumulated descriptor has a stripped
name-or-title that matches, the locator fails with the lookup error whose
diagnostic reports the requested name — but not the list of available
names. -/
theorem locate_C6_not_found (settings : List ExportSetting) (exportName : String)
    (h : ∀ it ∈ settings, pyStrip (pyOrStr it.name (pyOrStr it.title "")) ≠ exportName) :
    locate_export settings exportName = Except.error (not_found_msg exportName) ∧
    lsub exportName.data (not_found_msg exportName).data = true := by
  constructor
  · unfold locate_export
    rw [List.find?_eq_none.mpr]
    intro it hit
    simpa using h it hit
  · unfold not_found_msg
    simp only [String.data_append]
    rw [show ("No encontré export-setting con name=" : String).data ++
        (⟨[squote]⟩ : String).data ++ exportName.data ++ (⟨[squote]⟩ : String).data ++
        ("." : String).data =
      (("No encontré export-setting con name=" : String).data ++ (⟨[squote]⟩ : String).data) ++
        exportName.data ++ ((⟨[squote]⟩ : String).data ++ ("." : String).data) by
        simp [List.append_assoc]]
    exact lsub_of_append _ _ _

/-- Witness for C6: the amended lookup-failure theorem at a concrete
settings list. -/
theorem locate_C6_witness :
    locate_export [⟨some "otro", none⟩] "portal_csv" =
      Except.error (not_found_msg "portal_csv") ∧
    lsub "portal_csv".data (not_found_msg "portal_csv").data = true :=
  locate_C6_not_found [⟨some "otro", none⟩] "portal_csv" (by decide)

/-- Counterexample to C7 as stated: on an input where delimiter detection
fails, the decoder falls back to the semicolon delimiter, not the comma. -/
theorem sniff_C7_counterexample :
    sniff_dialect (fun _ => none) "" = ';' ∧ sniff_dialect (fun _ => none) "" ≠ ',' := by
  refine ⟨rfl, by decide⟩

/-- Claim C7, amended: delimiter detection samples the leading 4096
characters of the decoded text; when detection fails the decoder defaults to
the SEMICOLON delimiter (the code comments call it the common
Spanish-locale fallback), and when it succeeds the detected delimiter is
used. -/
theorem sniff_C7_fallback (sniffer : String → Option Char) (text : String) :
    (sniffer ⟨text.data.take 4096⟩ = none → sniff_dialect sniffer text = ';') ∧
    (∀ d, sniffer ⟨text.data.take 4096⟩ = some d → sniff_dialect sniffer text = d) := by
  constructor
  · intro h
    simp [sniff_dialect, h]
  · intro d h
    simp [sniff_dialect, h]

/-- Witness for C7: the fallback branch at a concrete failing sniffer. -/
theorem sniff_C7_witness : sniff_dialect (fun _ => none) "a;b" = ';' :=
  (sniff_C7_fallback (fun _ => none) "a;b").1 rfl

/-- Claim C8 is false of the program (code bug): per-row date handling is
NOT total for all combinations of date string values.  With two
coordinate-bearing rows whose date values are `"2024-05-01T10:00:00Z"`
(offset-aware after the `Z` rewrite) and `"2024-05-02T10:00:00"`
(offset-naive), the comparison `ts > last_ts` of the main loop raises an
uncaught `TypeError` and the run aborts — contradicting the claimed (and
spec-intended) non-fatal, row-local date handling.  The theorem evaluates
the faithful date-tracking model at exactly this failing input. -/
theorem dates_C8_abort :
    track_last_ts fromiso_cex (GeoMode.combined "ubicacion") "fecha_actividad"
      [[("ubicacion", "1 2"), ("fecha_actividad", "2024-05-01T10:00:00Z")],
       [("ubicacion", "1 2"), ("fecha_actividad", "2024-05-02T10:00:00")]] =
    Except.error "TypeError: comparison of offset-naive and offset-aware datetimes" := by
  have hsplit : pySplitWs (pyStrip "1 2") = ["1", "2"] := by decide
  have hf1 : pyFloat? "1" = some 1 := by
    simp [pyFloat?, pyFloatCore, pyFloatCore.pyFloatSigned, pyFloatTail, pyStrip, natOfDigits,
      List.takeWhile, List.dropWhile, isPyDigit, isPySpace]
    try norm_num
  have hf2 : pyFloat? "2" = some 2 := by
    simp [pyFloat?, pyFloatCore, pyFloatCore.pyFloatSigned, pyFloatTail, pyStrip, natOfDigits,
      List.takeWhile, List.dropWhile, isPyDigit, isPySpace]
    try norm_num
  have hp1 : parse_coords [("ubicacion", "1 2"), ("fecha_actividad", "2024-05-01T10:00:00Z")]
      (GeoMode.combined "ubicacion") = some [2, 1] :=
    parse_coords_combined_some _ _ _ _ _ _ _ _ (by decide) hsplit hf1 hf2
  have hp2 : parse_coords [("ubicacion", "1 2"), ("fecha_actividad", "2024-05-02T10:00:00")]
      (GeoMode.combined "ubicacion") = some [2, 1] :=
    parse_coords_combined_some _ _ _ _ _ _ _ _ (by decide) hsplit hf1 hf2
  have hd1 : iso_parse_dt fromiso_cex
      (Row.get [("ubicacion", "1 2"), ("fecha_actividad", "2024-05-01T10:00:00Z")]
        "fecha_actividad") = some ⟨true, 0⟩ := rfl
  have hd2 : iso_parse_dt fromiso_cex
      (Row.get [("ubicacion", "1 2"), ("fecha_actividad", "2024-05-02T10:00:00")]
        "fecha_actividad") = some ⟨false, 1⟩ := rfl
  simp only [track_last_ts, List.foldl_cons, List.foldl_nil, hp1, hp2, hd1, hd2,
    ts_update_dt, pyDtGt]
  norm_num

lemma build_step_skip (fromiso : String → Option ℚ) (mode : GeoMode)
    (dateField : Option String) (st : BuildState) (row : Row)
    (h : parse_coords row mode = none) :
    build_step fromiso mode dateField st row = st := by
  unfold build_step
  rw [h]

/-- Claim C9: a row lacking a resolvable coordinate under the resolved
geopoint mode is excluded from the output feature collection and contributes
nothing to any totals nor to the tracked timestamp: the whole build is
unchanged by dropping such rows (they are skipped silently, not an error —
the per-row step is the identity on them). -/
theorem skip_C9_rows_without_coords :
    ∀ (fromiso : String → Option ℚ) (mode : GeoMode) (dateField : Option String)
      (rows : List Row),
      build_features fromiso mode dateField rows =
        build_features fromiso mode dateField
          (rows.filter fun r => (parse_coords r mode).isSome) := by
  intro fromiso mode dateField rows
  unfold build_features
  suffices h : ∀ (l : List Row) (st : BuildState),
      l.foldl (build_step fromiso mode dateField) st =
        (l.filter fun r => (parse_coords r mode).isSome).foldl
          (build_step fromiso mode dateField) st from h rows build_init
  intro l
  induction l with
  | nil => intro st; rfl
  | cons r t ih =>
    intro st
    simp only [List.foldl_cons, List.filter_cons]
    cases hc : (parse_coords r mode).isSome with
    | false =>
      have hnone : parse_coords r mode = none := by
        cases hp : parse_coords r mode
        · rfl
        · rw [hp] at hc; simp at hc
      rw [build_step_skip fromiso mode dateField st r hnone]
      simp only [hc, Bool.false_eq_true, if_false]
      exact ih st
    | true =>
      simp only [hc, if_true, List.foldl_cons]
      exact ih (build_step fromiso mode dateField st r)

/-- The totals bookkeeping invariant of the per-row loop. -/
def TotalsInv (st : BuildState) : Prop :=
  st.total_boletas = (st.features.length : ℤ) ∧
  st.total_plantas = (st.features.map fun f => f.properties.total_plantas).sum ∧
  st.total_participantes = (st.features.map fun f => f.properties.total_participantes).sum

lemma totals_inv_step (fromiso : String → Option ℚ) (mode : GeoMode)
    (dateField : Option String) (st : BuildState) (row : Row) (h : TotalsInv st) :
    TotalsInv (build_step fromiso mode dateField st row) := by
  unfold build_step
  cases parse_coords row mode with
  | none => exact h
  | some coords =>
    obtain ⟨h1, h2, h3⟩ := h
    refine ⟨?_, ?_, ?_⟩ <;>
      simp [List.map_append, List.sum_append, h1, h2, h3]

lemma totals_inv_foldl (fromiso : String → Option ℚ) (mode : GeoMode)
    (dateField : Option String) :
    ∀ (rows : List Row) (st : BuildState), TotalsInv st →
      TotalsInv (rows.foldl (build_step fromiso mode dateField) st) := by
  intro rows
  induction rows with
  | nil => intro st h; exact h
  | cons r t ih =>
    intro st h
    exact ih _ (totals_inv_step fromiso mode dateField st r h)

lemma totals_inv_build (fromiso : String → Option ℚ) (mode : GeoMode)
    (dateField : Option String) (rows : List Row) :
    TotalsInv (build_features fromiso mode dateField rows) :=
  totals_inv_foldl fromiso mode dateField rows build_init ⟨rfl, rfl, rfl⟩

/-- Claim C4, amended: for every produced output, the submissions total
equals the number of features and is non-negative, and the plants and
participants totals equal the sums of the per-feature counts; those two
sums are non-negative whenever every per-feature count is non-negative
(which the code does not force: a negative numeric cell value parses to a
negative per-feature count). -/
theorem totals_C4_sums (fromiso : String → Option ℚ) (fmt : ℚ → String) (now : String)
    (rows : List Row) (out : PipelineOut)
    (h : run_pipeline fromiso fmt now rows = Except.ok out) :
    out.resumen.total_boletas = (out.geojson.features.length : ℤ) ∧
    0 ≤ out.resumen.total_boletas ∧
    out.resumen.total_plantas = (out.geojson.features.map fun f => f.properties.total_plantas).sum ∧
    out.resumen.total_participantes =
      (out.geojson.features.map fun f => f.properties.total_participantes).sum ∧
    ((∀ f ∈ out.geojson.features, 0 ≤ f.properties.total_plantas) →
      0 ≤ out.resumen.total_plantas) ∧
    ((∀ f ∈ out.geojson.features, 0 ≤ f.properties.total_participantes) →
      0 ≤ out.resumen.total_participantes) := by
  have hmain : out.resumen.total_boletas = (out.geojson.features.length : ℤ) ∧
      out.resumen.total_plantas =
        (out.geojson.features.map fun f => f.properties.total_plantas).sum ∧
      out.resumen.total_participantes =
        (out.geojson.features.map fun f => f.properties.total_participantes).sum := by
    cases rows with
    | nil =>
      simp only [run_pipeline] at h
      cases h
      exact ⟨rfl, rfl, rfl⟩
    | cons r0 rest =>
      simp only [run_pipeline] at h
      cases hm : find_geopoint_mode (Row.keys r0) with
      | error e => rw [hm] at h; cases h
      | ok mode =>
        rw [hm] at h
        obtain ⟨hi1, hi2, hi3⟩ := totals_inv_build fromiso mode
          (DATE_FIELD_CANDIDATES.find? fun k => (Row.keys r0).contains k) (r0 :: rest)
        cases h
        exact ⟨hi1, hi2, hi3⟩
  obtain ⟨h1, h2, h3⟩ := hmain
  refine ⟨h1, ?_, h2, h3, ?_, ?_⟩
  · rw [h1]
    exact Int.natCast_nonneg _
  · intro hpos
    rw [h2]
    refine List.sum_nonneg fun x hx => ?_
    obtain ⟨f, hf, hfx⟩ := List.mem_map.mp hx
    rw [← hfx]
    exact hpos f hf
  · intro hpos
    rw [h3]
    refine List.sum_nonneg fun x hx => ?_
    obtain ⟨f, hf, hfx⟩ := List.mem_map.mp hx
    rw [← hfx]
    exact hpos f hf

/-- Witness for C4: the amended totals theorem at the empty input. -/
theorem totals_C4_witness :
    ((Except.ok ⟨⟨[]⟩, ⟨"now", 0, 0, 0⟩⟩ : Except NoGeopointError PipelineOut).isOk = true) ∧
    (⟨⟨[]⟩, ⟨"now", 0, 0, 0⟩⟩ : PipelineOut).resumen.total_boletas =
      ((⟨⟨[]⟩, ⟨"now", 0, 0, 0⟩⟩ : PipelineOut).geojson.features.length : ℤ) :=
  ⟨rfl, (totals_C4_sums (fun _ => none) (fun _ => "") "now" []
    ⟨⟨[]⟩, ⟨"now", 0, 0, 0⟩⟩ rfl).1⟩

/-- Counterexample to C4 as stated: one included row whose plant-count cell
is `"-3"` makes the plants total negative, so "all three totals are
non-negative" fails. -/
theorem totals_C4_counterexample :
    ((run_pipeline (fun _ => none) (fun _ => "") "now"
        [[("ubicacion", "1 2"), ("total_plantas", "-3")]]).toOption.map
      fun o => o.resumen.total_plantas) = some (-3) ∧ ((-3 : ℤ) < 0) := by
  constructor
  · have hget : Row.get [("ubicacion", "1 2"), ("total_plantas", "-3")] "ubicacion" =
        some "1 2" := by decide
    have hsplit : pySplitWs (pyStrip "1 2") = ["1", "2"] := by decide
    have hf1 : pyFloat? "1" = some 1 := by
      simp [pyFloat?, pyFloatCore, pyFloatCore.pyFloatSigned, pyFloatTail, pyStrip, natOfDigits,
        List.takeWhile, List.dropWhile, isPyDigit, isPySpace]
      try norm_num
    have hf2 : pyFloat? "2" = some 2 := by
      simp [pyFloat?, pyFloatCore, pyFloatCore.pyFloatSigned, pyFloatTail, pyStrip, natOfDigits,
        List.takeWhile, List.dropWhile, isPyDigit, isPySpace]
      try norm_num
    have hparse : parse_coords [("ubicacion", "1 2"), ("total_plantas", "-3")]
        (GeoMode.combined "ubicacion") = some [2, 1] :=
      parse_coords_combined_some _ _ _ _ _ _ _ _ hget hsplit hf1 hf2
    have hf3 : pyFloat? "-3" = some (-3) := by
      simp [pyFloat?, pyFloatCore, pyFloatCore.pyFloatSigned, pyFloatTail, pyStrip, natOfDigits,
        List.takeWhile, List.dropWhile, isPyDigit, isPySpace]
      try norm_num
    have hr3 : pyRound (-3) = -3 := by
      simp only [pyRound]
      norm_num
    have hti : to_int (some "-3") = -3 := by
      simp only [to_int, pyStr]
      rw [show pyStrip "-3" = "-3" from by decide]
      rw [if_neg (show ¬("-3" : String) = "" by decide)]
      rw [hf3]
      show pyRound (-3) = -3
      exact hr3
    have hmode : find_geopoint_mode
        (Row.keys [("ubicacion", "1 2"), ("total_plantas", "-3")]) =
        Except.ok (GeoMode.combined "ubicacion") := by decide
    have hdf : (DATE_FIELD_CANDIDATES.find? fun k =>
        (Row.keys [("ubicacion", "1 2"), ("total_plantas", "-3")]).contains k) = none := by
      decide
    have hgetp : Row.get [("ubicacion", "1 2"), ("total_plantas", "-3")] "total_plantas" =
        some "-3" := by decide
    simp only [run_pipeline, hmode, hdf, build_features, List.foldl_cons, List.foldl_nil,
      build_step, hparse, mk_props, hgetp, hti, build_init, Except.toOption, Option.map]
    norm_num
  · norm_num

/-- Claim C10: zero decoded data rows short-circuit to the empty feature
collection and the all-zero summary stamped with the current time, for every
oracle and clock — in particular geopoint detection (which would fail
fatally on the empty header set, second conjunct) is never reached. -/
theorem empty_C10_zero_rows (fromiso : String → Option ℚ) (fmt : ℚ → String) (now : String) :
    run_pipeline fromiso fmt now [] = Except.ok ⟨⟨[]⟩, ⟨now, 0, 0, 0⟩⟩ ∧
    find_geopoint_mode [] =
      Except.error ⟨GEOPOINT_ROOT_CANDIDATES, "variantes *_latitude/_longitude"⟩ :=
  ⟨rfl, by decide⟩
